import Mathlib

/-!
Verification of the keeper registry client
(`internal/pkg/keeper/client.go` of gems-os-edgex-registry).

The Go client is a thin HTTP wrapper: every public operation builds one or
two HTTP requests, sends them, and maps the HTTP status code of the
response to a success or error outcome.  We embed it shallowly: the network
is an explicit oracle argument (`NetResult`, the outcome the transport
would deliver for the request the code sends), response bodies are
represented by their decoded view (`Body`), and every operation returns,
next to its Go result, the list of HTTP requests it issued and the
receiver state after the call.  This makes "no network call", request
ordering and the frame condition on the receiver directly statable.
-/

/-- Modelled from the spec: `types.Config` of go-mod-registry is not under
`src/`.  Spec chapter 3 describes it as an immutable value holding the
registry base URL, the caller's own service identity (key, host, port) and
the health-check route/interval. -/
structure Config where
  registryUrl : String
  serviceKey : String
  serviceHost : String
  servicePort : Int
  checkRoute : String
  checkInterval : String
  deriving Repr, DecidableEq

/-- Modelled from the spec: `Config.GetRegistryUrl` of go-mod-registry is
not under `src/`; per spec chapter 3 the configuration holds the registry
base URL, which this accessor returns. -/
def Config.GetRegistryUrl (c : Config) : String := c.registryUrl

/-- Modelled from the spec: route constants of this repository are not
under `src/`; spec chapter 6 gives the route suffixes.  Registration by
service id: `<base>/registration/<serviceId>`. -/
def ApiRegistrationByServiceIdRoute : String := "/api/v3/registry/registration/"

/-- Modelled from the spec: register route `<base>/registration`. -/
def ApiRegisterRoute : String := "/api/v3/registry/registration"

/-- Modelled from the spec: all-registrations route `<base>/registration/all`. -/
def ApiAllRegistrationRoute : String := "/api/v3/registry/registration/all"

/-- Modelled from the spec: ping route `<base>/ping`. -/
def ApiPingRoute : String := "/api/v3/ping"

/-- Modelled from the spec: the API-version tag embedded in every outbound
mutating request body (spec chapter 6). -/
def ApiVersion : String := "v3"

/-- Modelled from the spec: wire type carrying the API-version tag
(spec chapter 5.2, "a versionable API-version tag on every outbound
request"); the definition file is not under `src/`. -/
structure Versionable where
  apiVersion : String
  deriving Repr, DecidableEq

/-- Modelled from the spec: base request wrapper embedding `Versionable`. -/
structure BaseRequest where
  versionable : Versionable
  deriving Repr, DecidableEq

/-- Modelled from the spec: health-check descriptor with interval, path and
probe type (spec chapter 3, "health-check sub-object with
interval/path/type"). -/
structure HealthCheck where
  interval : String
  path : String
  type : String
  deriving Repr, DecidableEq

/-- Modelled from the spec: one registration record — service identifier,
host, port, embedded health check, and a registry-populated status field
(spec chapter 3). -/
structure RegistrationDTO where
  serviceId : String
  host : String
  port : Int
  healthCheck : HealthCheck
  status : String
  deriving Repr, DecidableEq

/-- Modelled from the spec: the outbound registration request body —
a base request plus the registration record. -/
structure AddRegistrationRequest where
  baseRequest : BaseRequest
  registration : RegistrationDTO
  deriving Repr, DecidableEq

/-- Modelled from the spec: the common error envelope carrying a
human-readable message (spec chapter 3, "Base Response Envelope"). -/
structure BaseResponse where
  message : String
  deriving Repr, DecidableEq

/-- Modelled from the spec: single-registration response wrapper. -/
structure RegistrationResponse where
  registration : RegistrationDTO
  deriving Repr, DecidableEq

/-- Modelled from the spec: list-wrapped registration response. -/
structure MultiRegistrationsResponse where
  registrations : List RegistrationDTO
  deriving Repr, DecidableEq

/-- `types.ServiceEndpoint` (go-mod-registry, not under `src/`): the
resolved address of a service — identifier, host, port (spec chapter 3). -/
structure ServiceEndpoint where
  serviceId : String
  host : String
  port : Int
  deriving Repr, DecidableEq

/-- The decoded view of a response body: which wire shape the body's bytes
successfully unmarshal into.  `rawBody` stands for bytes that do not
decode into the shape the client asks for. -/
inductive Body where
  | baseBody (r : BaseResponse)
  | regBody (r : RegistrationResponse)
  | multiBody (r : MultiRegistrationsResponse)
  | rawBody (s : String)
  deriving Repr, DecidableEq

/-- `json.Unmarshal` into `BaseResponse`, on the decoded view. -/
def decodeBaseResponse : Body → Option BaseResponse
  | .baseBody r => some r
  | _ => none

/-- `json.Unmarshal` into `RegistrationResponse`, on the decoded view. -/
def decodeRegistrationResponse : Body → Option RegistrationResponse
  | .regBody r => some r
  | _ => none

/-- `json.Unmarshal` into `MultiRegistrationsResponse`, on the decoded view. -/
def decodeMultiRegistrationsResponse : Body → Option MultiRegistrationsResponse
  | .multiBody r => some r
  | _ => none

/-- Outcome of `io.ReadAll` on a response body: either a read error or the
full content. -/
inductive BodyContent where
  | readError (msg : String)
  | content (b : Body)
  deriving Repr, DecidableEq

/-- Outcome the transport delivers for one HTTP round trip: a transport
error (connection failure or timeout) or a response with a status code and
a body. -/
inductive NetResult where
  | transportErr (msg : String)
  | resp (status : Nat) (body : BodyContent)
  deriving Repr, DecidableEq

/-- HTTP method of an outbound request. -/
inductive Method where
  | get
  | post
  | put
  | delete
  deriving Repr, DecidableEq

/-- One outbound HTTP request as the client builds it: method, full URL,
and optional serialized body. -/
structure HttpRequest where
  method : Method
  url : String
  body : Option String
  deriving Repr, DecidableEq

/-- Modelled from the spec: `json.Marshal` on the health-check sub-object
(Go standard library, external collaborator).  A concrete injective
serialization standing for the JSON bytes. -/
def encodeHealthCheck (h : HealthCheck) : String :=
  "\x7b\"Interval\":\"" ++ h.interval ++ "\",\"Path\":\"" ++ h.path ++
    "\",\"Type\":\"" ++ h.type ++ "\"\x7d"

/-- Modelled from the spec: `json.Marshal` on the outbound registration
request (Go standard library, external collaborator). -/
def encodeAddRegistrationRequest (r : AddRegistrationRequest) : String :=
  "\x7b\"apiVersion\":\"" ++ r.baseRequest.versionable.apiVersion ++
    "\",\"ServiceId\":\"" ++ r.registration.serviceId ++
    "\",\"Host\":\"" ++ r.registration.host ++
    "\",\"Port\":" ++ toString r.registration.port ++
    ",\"HealthCheck\":" ++ encodeHealthCheck r.registration.healthCheck ++ "\x7d"

/-- The client state (`keeperClient` struct of `client.go`). -/
structure keeperClient where
  config : Config
  keeperUrl : String
  serviceKey : String
  serviceHost : String
  servicePort : Int
  healthCheckRoute : String
  healthCheckInterval : String
  deriving Repr, DecidableEq

/-- Result of one operation: the Go return value, the HTTP requests the
operation issued (in order), and the receiver state after the call. -/
structure OpResult (α : Type) where
  result : α
  trace : List HttpRequest
  state : keeperClient
  deriving Repr, DecidableEq

/-- `NewKeeperClient` (`client.go` lines 32-48): builds the client from the
configuration, copying the self-registration fields only when
`ServiceHost` is non-empty; always returns a nil error and performs no
I/O (the Lean type has no network-trace component because the Go body
makes no HTTP call). -/
def NewKeeperClient (registryConfig : Config) : keeperClient × Option String :=
  let client : keeperClient :=
    { config := registryConfig
      serviceKey := registryConfig.serviceKey
      keeperUrl := registryConfig.GetRegistryUrl
      serviceHost := ""
      servicePort := 0
      healthCheckRoute := ""
      healthCheckInterval := "" }
  -- ServiceHost will be empty when client isn't registering the service
  let client :=
    if registryConfig.serviceHost ≠ "" then
      { client with
          servicePort := registryConfig.servicePort
          serviceHost := registryConfig.serviceHost
          healthCheckRoute := registryConfig.checkRoute
          healthCheckInterval := registryConfig.checkInterval }
    else client
  (client, none)

/-- The registration request `Register` builds from the client's stored
fields (`client.go` lines 56-70): probe type fixed to "http", the
API-version tag on the base request. -/
def keeperClient.registrationRequest (k : keeperClient) : AddRegistrationRequest :=
  { baseRequest := { versionable := { apiVersion := ApiVersion } }
    registration :=
      { serviceId := k.serviceKey
        host := k.serviceHost
        port := k.servicePort
        healthCheck :=
          { interval := k.healthCheckInterval
            path := k.healthCheckRoute
            type := "http" }
        status := "" } }

/-- The GET probe request `Register` sends first (`client.go` line 78,
via `getRegistryByService`). -/
def keeperClient.probeRequest (k : keeperClient) : HttpRequest :=
  { method := .get
    url := k.config.GetRegistryUrl ++ ApiRegistrationByServiceIdRoute ++ k.serviceKey
    body := none }

/-- `Register` (`client.go` lines 50-116).  Fails with a configuration
error and no network traffic when any self-registration field is missing;
otherwise serializes the registration request once, probes for an existing
record, PUTs if the probe answered 200 and POSTs otherwise, succeeding
exactly on 201/204 and decoding the error envelope on any other final
status.  `probe` is the transport outcome of the existence probe and
`final` that of the PUT/POST. -/
def keeperClient.Register (k : keeperClient) (probe final : NetResult) :
    OpResult (Option String) :=
  if k.serviceKey = "" ∨ k.serviceHost = "" ∨ k.servicePort = 0 ∨
      k.healthCheckRoute = "" ∨ k.healthCheckInterval = "" then
    { result := some "unable to register service with keeper: Service information not set"
      trace := []
      state := k }
  else
    let jsonEncodedData := encodeAddRegistrationRequest k.registrationRequest
    -- check if the service registry exists first
    match probe with
    | .transportErr e =>
        { result := some ("failed to check the " ++ k.serviceKey ++
            " service registry status: " ++ "http error: " ++ e)
          trace := [k.probeRequest]
          state := k }
    | .resp probeStatus _ =>
        -- call the PUT registry API to update the registry if the service
        -- already exists, otherwise call the POST API to create the registry
        let httpMethod : Method := if probeStatus = 200 then .put else .post
        let registerReq : HttpRequest :=
          { method := httpMethod
            url := k.config.GetRegistryUrl ++ ApiRegisterRoute
            body := some jsonEncodedData }
        match final with
        | .transportErr e =>
            { result := some ("http error: " ++ e)
              trace := [k.probeRequest, registerReq]
              state := k }
        | .resp status body =>
            if status ≠ 201 ∧ status ≠ 204 then
              match body with
              | .readError e =>
                  { result := some ("failed to read response body: " ++ e)
                    trace := [k.probeRequest, registerReq]
                    state := k }
              | .content b =>
                  match decodeBaseResponse b with
                  | none =>
                      { result := some "failed to decode response body: unmarshal error"
                        trace := [k.probeRequest, registerReq]
                        state := k }
                  | some response =>
                      { result := some ("failed to register " ++ k.serviceKey ++
                          ": " ++ response.message)
                        trace := [k.probeRequest, registerReq]
                        state := k }
            else
              { result := none
                trace := [k.probeRequest, registerReq]
                state := k }

/-- `Unregister` (`client.go` lines 118-145): DELETEs the caller's own
registration; succeeds exactly on status 204, otherwise reads and decodes
the error envelope and fails with its message. -/
def keeperClient.Unregister (k : keeperClient) (net : NetResult) :
    OpResult (Option String) :=
  let deleteReq : HttpRequest :=
    { method := .delete
      url := k.config.GetRegistryUrl ++ ApiRegistrationByServiceIdRoute ++ k.serviceKey
      body := none }
  match net with
  | .transportErr e =>
      { result := some ("http error: " ++ e), trace := [deleteReq], state := k }
  | .resp status body =>
      if status ≠ 204 then
        match body with
        | .readError e =>
            { result := some ("failed to read response body: " ++ e)
              trace := [deleteReq]
              state := k }
        | .content b =>
            match decodeBaseResponse b with
            | none =>
                { result := some "failed to decode response body: unmarshal error"
                  trace := [deleteReq]
                  state := k }
            | some response =>
                { result := some ("failed to unregister " ++ k.serviceKey ++
                    ": " ++ response.message)
                  trace := [deleteReq]
                  state := k }
      else
        { result := none, trace := [deleteReq], state := k }

/-- `RegisterCheck` (`client.go` lines 147-150): a no-op returning nil —
keeper combines service discovery and health check into the single
register request. -/
def keeperClient.RegisterCheck (k : keeperClient)
    (_ _ _ _ _ : String) : OpResult (Option String) :=
  { result := none, trace := [], state := k }

/-- `IsAlive` (`client.go` lines 152-164): GETs the registry's ping route;
true exactly when the status lies in [200, 300); transport errors give
false; the Go signature returns only a bool, so no error can be raised. -/
def keeperClient.IsAlive (k : keeperClient) (net : NetResult) : OpResult Bool :=
  let pingReq : HttpRequest :=
    { method := .get, url := k.keeperUrl ++ ApiPingRoute, body := none }
  match net with
  | .transportErr _ => { result := false, trace := [pingReq], state := k }
  | .resp status _ =>
      if 200 ≤ status ∧ status < 300 then
        { result := true, trace := [pingReq], state := k }
      else
        { result := false, trace := [pingReq], state := k }

/-- `GetServiceEndpoint` (`client.go` lines 166-206): GETs the record for
the requested key; on 200 with a decodable registration response returns
an endpoint whose id is the REQUESTED key and whose host/port come from
the record; every failure path returns the zero-value endpoint and an
error. -/
def keeperClient.GetServiceEndpoint (k : keeperClient) (serviceKey : String)
    (net : NetResult) : OpResult (ServiceEndpoint × Option String) :=
  let getReq : HttpRequest :=
    { method := .get
      url := k.config.GetRegistryUrl ++ ApiRegistrationByServiceIdRoute ++ serviceKey
      body := none }
  let zeroEndpoint : ServiceEndpoint := { serviceId := "", host := "", port := 0 }
  match net with
  | .transportErr e =>
      { result := (zeroEndpoint, some ("http error: " ++ e))
        trace := [getReq]
        state := k }
  | .resp status body =>
      match body with
      | .readError e =>
          { result := (zeroEndpoint, some ("failed to read response body: " ++ e))
            trace := [getReq]
            state := k }
      | .content b =>
          if status ≠ 200 then
            match decodeBaseResponse b with
            | none =>
                { result := (zeroEndpoint,
                    some "failed to decode response body: unmarshal error")
                  trace := [getReq]
                  state := k }
            | some response =>
                { result := (zeroEndpoint,
                    some ("failed to get service endpoint: " ++ response.message))
                  trace := [getReq]
                  state := k }
          else
            match decodeRegistrationResponse b with
            | none =>
                { result := (zeroEndpoint,
                    some "failed to decode response body: unmarshal error")
                  trace := [getReq]
                  state := k }
            | some r =>
                { result :=
                    ({ serviceId := serviceKey
                       host := r.registration.host
                       port := r.registration.port }, none)
                  trace := [getReq]
                  state := k }

/-- The projection of one registration record into a service endpoint
(`client.go` lines 244-248). -/
def endpointOfRegistration (r : RegistrationDTO) : ServiceEndpoint :=
  { serviceId := r.serviceId, host := r.host, port := r.port }

/-- `GetAllServiceEndpoints` (`client.go` lines 208-253): GETs the full
registration list; on 200 with a decodable list response projects each
record into an endpoint, in order; every failure path returns the nil
slice (here `[]`) and an error. -/
def keeperClient.GetAllServiceEndpoints (k : keeperClient) (net : NetResult) :
    OpResult (List ServiceEndpoint × Option String) :=
  let getReq : HttpRequest :=
    { method := .get
      url := k.config.GetRegistryUrl ++ ApiAllRegistrationRoute
      body := none }
  match net with
  | .transportErr e =>
      { result := ([], some ("http error: " ++ e)), trace := [getReq], state := k }
  | .resp status body =>
      match body with
      | .readError e =>
          { result := ([], some ("failed to read response body: " ++ e))
            trace := [getReq]
            state := k }
      | .content b =>
          if status ≠ 200 then
            match decodeBaseResponse b with
            | none =>
                { result := ([], some "failed to decode response body: unmarshal error")
                  trace := [getReq]
                  state := k }
            | some response =>
                { result := ([],
                    some ("failed to get all service endpoints: " ++ response.message))
                  trace := [getReq]
                  state := k }
          else
            match decodeMultiRegistrationsResponse b with
            | none =>
                { result := ([], some "failed to decode response body: unmarshal error")
                  trace := [getReq]
                  state := k }
            | some responseDTO =>
                { result := (responseDTO.registrations.map endpointOfRegistration, none)
                  trace := [getReq]
                  state := k }

/-- Modelled from the spec: `strings.EqualFold` (Go standard library,
external collaborator) — case-insensitive string equality, compared
character by character under simple case folding. -/
def stringsEqualFold (a b : String) : Bool :=
  a.data.map Char.toLower = b.data.map Char.toLower

/-- `IsServiceAvailable` (`client.go` lines 271-306): GETs the record for
the key; 200 with status field case-insensitively "up" gives (true, nil);
200 otherwise gives (false, not-healthy error); 404 gives (false,
not-registered error); any other status decodes the envelope and gives
(false, its message). -/
def keeperClient.IsServiceAvailable (k : keeperClient) (serviceKey : String)
    (net : NetResult) : OpResult (Bool × Option String) :=
  let getReq : HttpRequest :=
    { method := .get
      url := k.config.GetRegistryUrl ++ ApiRegistrationByServiceIdRoute ++ serviceKey
      body := none }
  match net with
  | .transportErr e =>
      { result := (false, some ("failed to get " ++ serviceKey ++
          " service registry: " ++ "http error: " ++ e))
        trace := [getReq]
        state := k }
  | .resp status body =>
      match body with
      | .readError e =>
          { result := (false, some ("failed to read response body: " ++ e))
            trace := [getReq]
            state := k }
      | .content b =>
          if status = 200 then
            match decodeRegistrationResponse b with
            | none =>
                { result := (false, some "failed to decode response body: unmarshal error")
                  trace := [getReq]
                  state := k }
            | some response =>
                if ¬ stringsEqualFold response.registration.status "up" then
                  { result := (false, some (" " ++ serviceKey ++ " service not healthy..."))
                    trace := [getReq]
                    state := k }
                else
                  { result := (true, none), trace := [getReq], state := k }
          else if status = 404 then
            { result := (false, some (serviceKey ++
                " service is not registered. Might not have started... "))
              trace := [getReq]
              state := k }
          else
            match decodeBaseResponse b with
            | none =>
                { result := (false, some "failed to decode response body: unmarshal error")
                  trace := [getReq]
                  state := k }
            | some response =>
                { result := (false, some ("failed to check service availability: " ++
                    response.message))
                  trace := [getReq]
                  state := k }

/-! ### Sample data used by the concrete witnesses -/

/-- A concrete configuration with full self-registration data. -/
def sampleConfig : Config :=
  { registryUrl := "http://localhost:59890"
    serviceKey := "core-data"
    serviceHost := "edgex-core-data"
    servicePort := 59880
    checkRoute := "/api/v3/ping"
    checkInterval := "10s" }

/-- The client built from `sampleConfig`. -/
def sampleClient : keeperClient := (NewKeeperClient sampleConfig).1

/-- A concrete registration record as the registry would return it. -/
def sampleRegistration : RegistrationDTO :=
  { serviceId := "core-data"
    host := "edgex-core-data"
    port := 59880
    healthCheck := { interval := "10s", path := "/api/v3/ping", type := "http" }
    status := "UP" }

/-! ### Claims -/

/-- C1: for every client missing any of service key, host, port,
health-check route or interval (empty string or zero port), `Register`
returns the configuration error immediately, with an empty request trace —
no HTTP request is built or sent — and the client unchanged. -/
theorem Register_missingConfig_noNetworkCall (k : keeperClient)
    (probe final : NetResult)
    (h : k.serviceKey = "" ∨ k.serviceHost = "" ∨ k.servicePort = 0 ∨
      k.healthCheckRoute = "" ∨ k.healthCheckInterval = "") :
    k.Register probe final =
      { result := some "unable to register service with keeper: Service information not set"
        trace := []
        state := k } := by
  unfold keeperClient.Register
  rw [if_pos h]

/-- Witness for C1: a client with an empty service key takes the
configuration-error branch with no network call. -/
theorem Register_missingConfig_noNetworkCall_witness :
    ({ sampleClient with serviceKey := "" } : keeperClient).Register
        (.transportErr "registry down") (.transportErr "registry down") =
      { result := some "unable to register service with keeper: Service information not set"
        trace := []
        state := { sampleClient with serviceKey := "" } } :=
  Register_missingConfig_noNetworkCall _ _ _ (Or.inl rfl)

/-- C5: `IsAlive` returns false on every transport error, returns true on a
response exactly when the status lies in [200, 300), and by its return type
(`Bool` only) never produces an error value. -/
theorem IsAlive_trueIff2xx (k : keeperClient) :
    (∀ e, (k.IsAlive (.transportErr e)).result = false) ∧
    (∀ st bd, (k.IsAlive (.resp st bd)).result = true ↔ (200 ≤ st ∧ st < 300)) := by
  constructor
  · intro e; rfl
  · intro st bd
    simp only [keeperClient.IsAlive]
    split
    next h => simpa using h
    next h => simpa using h

/-- C7: `Unregister` succeeds exactly on status 204; on any other status
with a decodable error envelope it fails with the registry's message. -/
theorem Unregister_successIff204 (k : keeperClient) :
    (∀ bd, (k.Unregister (.resp 204 bd)).result = none) ∧
    (∀ st bd, (k.Unregister (.resp st bd)).result = none → st = 204) ∧
    (∀ st b r, st ≠ 204 → decodeBaseResponse b = some r →
      (k.Unregister (.resp st (.content b))).result =
        some ("failed to unregister " ++ k.serviceKey ++ ": " ++ r.message)) := by
  refine ⟨?_, ?_, ?_⟩
  · intro bd
    simp [keeperClient.Unregister]
  · intro st bd h
    by_contra hst
    simp only [keeperClient.Unregister] at h
    rw [if_pos hst] at h
    cases bd with
    | readError e => simp at h
    | content b => cases b <;> simp [decodeBaseResponse] at h
  · intro st b r hst hdec
    simp only [keeperClient.Unregister]
    rw [if_pos hst]
    simp [hdec]

/-- Witness for C7: a 204 delete response succeeds, and a 500 response with
a decoded envelope fails with the registry's message. -/
theorem Unregister_successIff204_witness :
    (sampleClient.Unregister (.resp 204 (.content (.rawBody "")))).result = none ∧
    (sampleClient.Unregister
        (.resp 500 (.content (.baseBody { message := "boom" })))).result =
      some ("failed to unregister " ++ sampleClient.serviceKey ++ ": " ++ "boom") :=
  ⟨(Unregister_successIff204 sampleClient).1 (.content (.rawBody "")),
   (Unregister_successIff204 sampleClient).2.2 500 (.baseBody { message := "boom" })
     { message := "boom" } (by decide) rfl⟩

/-- C9: every public operation leaves the client state — configuration,
registry URL, service key, host, port, health-check route and interval —
unchanged, on every success and every error path. -/
theorem client_state_immutable (k : keeperClient) (p f n1 n2 n3 n4 n5 : NetResult)
    (key i nm no u iv : String) :
    (k.Register p f).state = k ∧
    (k.Unregister n1).state = k ∧
    (k.RegisterCheck i nm no u iv).state = k ∧
    (k.IsAlive n2).state = k ∧
    (k.GetServiceEndpoint key n3).state = k ∧
    (k.GetAllServiceEndpoints n4).state = k ∧
    (k.IsServiceAvailable key n5).state = k := by
  refine ⟨?_, ?_, rfl, ?_, ?_, ?_, ?_⟩
  · unfold keeperClient.Register
    repeat' split
    all_goals rfl
  · unfold keeperClient.Unregister
    repeat' split
    all_goals rfl
  · unfold keeperClient.IsAlive
    repeat' split
    all_goals rfl
  · unfold keeperClient.GetServiceEndpoint
    repeat' split
    all_goals rfl
  · unfold keeperClient.GetAllServiceEndpoints
    repeat' split
    all_goals rfl
  · unfold keeperClient.IsServiceAvailable
    repeat' split
    all_goals rfl

/-- C2: with the preconditions satisfied, `Register` first sends the GET
probe, then sends the registration request with method PUT exactly when
the probe answered 200 (POST for any other probe status); the final call
succeeds exactly on status 201 or 204, and on any other final status with
a decodable envelope it fails with a registration error carrying the
envelope's message. -/
theorem Register_probeThenPutOrPost (k : keeperClient) (ps : Nat)
    (pb : BodyContent) (final : NetResult)
    (hpre : ¬(k.serviceKey = "" ∨ k.serviceHost = "" ∨ k.servicePort = 0 ∨
      k.healthCheckRoute = "" ∨ k.healthCheckInterval = "")) :
    ((k.Register (.resp ps pb) final).trace =
      [k.probeRequest,
       { method := if ps = 200 then .put else .post
         url := k.config.GetRegistryUrl ++ ApiRegisterRoute
         body := some (encodeAddRegistrationRequest k.registrationRequest) }]) ∧
    (∀ req, (k.Register (.resp ps pb) final).trace = [k.probeRequest, req] →
      (req.method = .put ↔ ps = 200)) ∧
    (∀ st bd, final = .resp st bd →
      ((k.Register (.resp ps pb) final).result = none ↔ (st = 201 ∨ st = 204))) ∧
    (∀ st b r, final = .resp st (.content b) → decodeBaseResponse b = some r →
      st ≠ 201 → st ≠ 204 →
      (k.Register (.resp ps pb) final).result =
        some ("failed to register " ++ k.serviceKey ++ ": " ++ r.message)) := by
  have htrace : (k.Register (.resp ps pb) final).trace =
      [k.probeRequest,
       { method := if ps = 200 then .put else .post
         url := k.config.GetRegistryUrl ++ ApiRegisterRoute
         body := some (encodeAddRegistrationRequest k.registrationRequest) }] := by
    unfold keeperClient.Register
    rw [if_neg hpre]
    cases final with
    | transportErr e => rfl
    | resp st bd =>
      dsimp only
      split
      · cases bd with
        | readError e => rfl
        | content b => cases b <;> rfl
      · rfl
  refine ⟨htrace, ?_, ?_, ?_⟩
  · intro req hreq
    rw [htrace] at hreq
    have hr : req = { method := if ps = 200 then .put else .post
                      url := k.config.GetRegistryUrl ++ ApiRegisterRoute
                      body := some (encodeAddRegistrationRequest k.registrationRequest) } := by
      have h2 := hreq
      simp only [List.cons.injEq, and_true] at h2
      exact h2.2.symm
    subst hr
    by_cases h200 : ps = 200
    · simp [h200]
    · simp [h200]
  · intro st bd hf
    subst hf
    simp only [keeperClient.Register]
    rw [if_neg hpre]
    by_cases hs : st = 201 ∨ st = 204
    · rw [if_neg (fun hc => hs.elim hc.1 hc.2)]
      simpa using hs
    · push_neg at hs
      rw [if_pos ⟨hs.1, hs.2⟩]
      cases bd with
      | readError e => simp [hs]
      | content b =>
        cases b <;> simp [decodeBaseResponse, hs]
  · intro st b r hf hdec h1 h2
    subst hf
    simp only [keeperClient.Register]
    rw [if_neg hpre]
    rw [if_pos ⟨h1, h2⟩]
    simp [hdec]

/-- Witness for C2: the sample client with a 200 probe and a 201 final
response succeeds, with the probe first and a PUT second. -/
theorem Register_probeThenPutOrPost_witness :
    ((sampleClient.Register (.resp 200 (.content (.rawBody "")))
        (.resp 201 (.content (.rawBody "")))).result = none) ∧
    ((sampleClient.Register (.resp 200 (.content (.rawBody "")))
        (.resp 201 (.content (.rawBody "")))).trace =
      [sampleClient.probeRequest,
       { method := if (200 : Nat) = 200 then .put else .post
         url := sampleClient.config.GetRegistryUrl ++ ApiRegisterRoute
         body := some (encodeAddRegistrationRequest sampleClient.registrationRequest) }]) :=
  ⟨((Register_probeThenPutOrPost sampleClient 200 (.content (.rawBody ""))
      (.resp 201 (.content (.rawBody ""))) (by decide)).2.2.1 201
      (.content (.rawBody "")) rfl).mpr (Or.inl rfl),
   (Register_probeThenPutOrPost sampleClient 200 (.content (.rawBody ""))
      (.resp 201 (.content (.rawBody ""))) (by decide)).1⟩

/-- C10: with the preconditions satisfied, the registration request body is
serialized once from the client's stored fields (probe type "http", the
API-version tag), so the body sent on the update (PUT) path is identical to
the body sent on the create (POST) path, whatever the two probe outcomes
and final responses are. -/
theorem Register_bodyBuiltOnce (k : keeperClient)
    (ps ps2 : Nat) (pb pb2 : BodyContent) (final final2 : NetResult)
    (hpre : ¬(k.serviceKey = "" ∨ k.serviceHost = "" ∨ k.servicePort = 0 ∨
      k.healthCheckRoute = "" ∨ k.healthCheckInterval = "")) :
    (((k.Register (.resp ps pb) final).trace.get? 1).map HttpRequest.body =
      some (some (encodeAddRegistrationRequest k.registrationRequest))) ∧
    (((k.Register (.resp ps pb) final).trace.get? 1).map HttpRequest.body =
      ((k.Register (.resp ps2 pb2) final2).trace.get? 1).map HttpRequest.body) := by
  have h1 := (Register_probeThenPutOrPost k ps pb final hpre).1
  have h2 := (Register_probeThenPutOrPost k ps2 pb2 final2 hpre).1
  rw [h1, h2]
  exact ⟨rfl, rfl⟩

/-- Witness for C10: with a 200 probe (update path) and a 404 probe (create
path), the sample client sends byte-for-byte the same serialized body. -/
theorem Register_bodyBuiltOnce_witness :
    (((sampleClient.Register (.resp 200 (.content (.rawBody "")))
        (.resp 201 (.content (.rawBody "")))).trace.get? 1).map HttpRequest.body =
      some (some (encodeAddRegistrationRequest sampleClient.registrationRequest))) ∧
    (((sampleClient.Register (.resp 200 (.content (.rawBody "")))
        (.resp 201 (.content (.rawBody "")))).trace.get? 1).map HttpRequest.body =
      ((sampleClient.Register (.resp 404 (.content (.rawBody "")))
        (.resp 201 (.content (.rawBody "")))).trace.get? 1).map HttpRequest.body) :=
  Register_bodyBuiltOnce sampleClient 200 404 (.content (.rawBody ""))
    (.content (.rawBody "")) (.resp 201 (.content (.rawBody "")))
    (.resp 201 (.content (.rawBody ""))) (by decide)

/-- C3: `IsServiceAvailable` returns (true, nil) exactly when the fetch
answered 200 with a decodable record whose status field is
case-insensitively "up"; 200 with any other status gives the not-healthy
error, 404 the not-registered error, any other status the decoded envelope
message; and it never returns true together with an error. -/
theorem IsServiceAvailable_upIff (k : keeperClient) (key : String) :
    (∀ net, (k.IsServiceAvailable key net).result = (true, none) ↔
      ∃ b r, net = .resp 200 (.content b) ∧
        decodeRegistrationResponse b = some r ∧
        stringsEqualFold r.registration.status "up" = true) ∧
    (∀ b r, decodeRegistrationResponse b = some r →
      stringsEqualFold r.registration.status "up" = false →
      (k.IsServiceAvailable key (.resp 200 (.content b))).result =
        (false, some (" " ++ key ++ " service not healthy..."))) ∧
    (∀ b, (k.IsServiceAvailable key (.resp 404 (.content b))).result =
      (false, some (key ++ " service is not registered. Might not have started... "))) ∧
    (∀ st b r, st ≠ 200 → st ≠ 404 → decodeBaseResponse b = some r →
      (k.IsServiceAvailable key (.resp st (.content b))).result =
        (false, some ("failed to check service availability: " ++ r.message))) ∧
    (∀ net, (k.IsServiceAvailable key net).result.1 = true →
      (k.IsServiceAvailable key net).result.2 = none) := by
  refine ⟨?_, ?_, ?_, ?_, ?_⟩
  · intro net
    constructor
    · intro h
      cases net with
      | transportErr e => simp [keeperClient.IsServiceAvailable] at h
      | resp st bd =>
        cases bd with
        | readError e => simp [keeperClient.IsServiceAvailable] at h
        | content b =>
          by_cases h200 : st = 200
          · subst h200
            cases b with
            | regBody r =>
              refine ⟨.regBody r, r, rfl, rfl, ?_⟩
              by_contra hup
              simp [keeperClient.IsServiceAvailable, decodeRegistrationResponse,
                Bool.not_eq_true .. ▸ hup] at h
            | baseBody r =>
              simp [keeperClient.IsServiceAvailable, decodeRegistrationResponse] at h
            | multiBody r =>
              simp [keeperClient.IsServiceAvailable, decodeRegistrationResponse] at h
            | rawBody s =>
              simp [keeperClient.IsServiceAvailable, decodeRegistrationResponse] at h
          · by_cases h404 : st = 404
            · subst h404
              simp [keeperClient.IsServiceAvailable] at h
            · cases b <;>
                simp [keeperClient.IsServiceAvailable, decodeBaseResponse,
                  h200, h404] at h
    · rintro ⟨b, r, rfl, hdec, hup⟩
      cases b <;> simp [decodeRegistrationResponse] at hdec
      subst hdec
      simp [keeperClient.IsServiceAvailable, decodeRegistrationResponse, hup]
  · intro b r hdec hup
    cases b <;> simp [decodeRegistrationResponse] at hdec
    subst hdec
    simp [keeperClient.IsServiceAvailable, decodeRegistrationResponse, hup]
  · intro b
    simp [keeperClient.IsServiceAvailable]
  · intro st b r h200 h404 hdec
    cases b <;> simp [decodeBaseResponse] at hdec
    subst hdec
    simp [keeperClient.IsServiceAvailable, decodeBaseResponse, h200, h404]
  · intro net h
    cases net with
    | transportErr e => simp [keeperClient.IsServiceAvailable] at h
    | resp st bd =>
      cases bd with
      | readError e => simp [keeperClient.IsServiceAvailable] at h
      | content b =>
        by_cases h200 : st = 200
        · subst h200
          cases b with
          | regBody r =>
            by_cases hup : stringsEqualFold r.registration.status "up" = true
            · simp [keeperClient.IsServiceAvailable, decodeRegistrationResponse, hup]
            · simp [keeperClient.IsServiceAvailable, decodeRegistrationResponse,
                hup] at h
          | baseBody r =>
            simp [keeperClient.IsServiceAvailable, decodeRegistrationResponse] at h
          | multiBody r =>
            simp [keeperClient.IsServiceAvailable, decodeRegistrationResponse] at h
          | rawBody s =>
            simp [keeperClient.IsServiceAvailable, decodeRegistrationResponse] at h
        · by_cases h404 : st = 404
          · subst h404
            simp [keeperClient.IsServiceAvailable, h200] at h
          · cases b <;>
              simp [keeperClient.IsServiceAvailable, decodeBaseResponse,
                h200, h404] at h

/-- Witness for C3: the sample "UP" record yields (true, nil); a 404 yields
the not-registered error. -/
theorem IsServiceAvailable_upIff_witness :
    (sampleClient.IsServiceAvailable "core-data"
        (.resp 200 (.content (.regBody { registration := sampleRegistration })))).result =
      (true, none) ∧
    (sampleClient.IsServiceAvailable "core-data"
        (.resp 404 (.content (.rawBody "")))).result =
      (false, some ("core-data" ++ " service is not registered. Might not have started... ")) :=
  ⟨((IsServiceAvailable_upIff sampleClient "core-data").1
      (.resp 200 (.content (.regBody { registration := sampleRegistration })))).mpr
      ⟨.regBody { registration := sampleRegistration },
       { registration := sampleRegistration }, rfl, rfl, by decide⟩,
   (IsServiceAvailable_upIff sampleClient "core-data").2.2.1 (.rawBody "")⟩

/-- C4: `GetServiceEndpoint` on a 200 response with a decodable record
returns the endpoint built from the REQUESTED key and the record's
host/port, with a nil error; transport errors, non-200 statuses and decode
failures all return the zero-value endpoint with a non-nil error. -/
theorem GetServiceEndpoint_keyFromRequest (k : keeperClient) (key : String) :
    (∀ b r, decodeRegistrationResponse b = some r →
      (k.GetServiceEndpoint key (.resp 200 (.content b))).result =
        ({ serviceId := key
           host := r.registration.host
           port := r.registration.port }, none)) ∧
    (∀ e, (k.GetServiceEndpoint key (.transportErr e)).result =
      ({ serviceId := "", host := "", port := 0 }, some ("http error: " ++ e))) ∧
    (∀ st bd, st ≠ 200 → ∃ e,
      (k.GetServiceEndpoint key (.resp st bd)).result =
        ({ serviceId := "", host := "", port := 0 }, some e)) ∧
    (∀ b, decodeRegistrationResponse b = none →
      (k.GetServiceEndpoint key (.resp 200 (.content b))).result =
        ({ serviceId := "", host := "", port := 0 },
         some "failed to decode response body: unmarshal error")) := by
  refine ⟨?_, ?_, ?_, ?_⟩
  · intro b r hdec
    cases b <;> simp [decodeRegistrationResponse] at hdec
    subst hdec
    simp [keeperClient.GetServiceEndpoint, decodeRegistrationResponse]
  · intro e
    rfl
  · intro st bd hst
    cases bd with
    | readError e =>
      exact ⟨"failed to read response body: " ++ e, by
        simp [keeperClient.GetServiceEndpoint]⟩
    | content b =>
      cases b with
      | baseBody r =>
        exact ⟨"failed to get service endpoint: " ++ r.message, by
          simp [keeperClient.GetServiceEndpoint, decodeBaseResponse, hst]⟩
      | regBody r =>
        exact ⟨"failed to decode response body: unmarshal error", by
          simp [keeperClient.GetServiceEndpoint, decodeBaseResponse, hst]⟩
      | multiBody r =>
        exact ⟨"failed to decode response body: unmarshal error", by
          simp [keeperClient.GetServiceEndpoint, decodeBaseResponse, hst]⟩
      | rawBody s =>
        exact ⟨"failed to decode response body: unmarshal error", by
          simp [keeperClient.GetServiceEndpoint, decodeBaseResponse, hst]⟩
  · intro b hdec
    cases b <;> simp [decodeRegistrationResponse] at hdec <;>
      simp [keeperClient.GetServiceEndpoint, decodeRegistrationResponse]

/-- Witness for C4: looking up "device-virtual" against a record whose
stored id is "core-data" returns the requested key with the record's
host/port; a 404 returns the zero endpoint and an error. -/
theorem GetServiceEndpoint_keyFromRequest_witness :
    (sampleClient.GetServiceEndpoint "device-virtual"
        (.resp 200 (.content (.regBody { registration := sampleRegistration })))).result =
      ({ serviceId := "device-virtual"
         host := sampleRegistration.host
         port := sampleRegistration.port }, none) ∧
    (∃ e, (sampleClient.GetServiceEndpoint "device-virtual"
        (.resp 404 (.content (.rawBody "")))).result =
      ({ serviceId := "", host := "", port := 0 }, some e)) :=
  ⟨(GetServiceEndpoint_keyFromRequest sampleClient "device-virtual").1
      (.regBody { registration := sampleRegistration })
      { registration := sampleRegistration } rfl,
   (GetServiceEndpoint_keyFromRequest sampleClient "device-virtual").2.2.1 404
      (.content (.rawBody "")) (by decide)⟩

/-- C6: `GetAllServiceEndpoints` on a 200 response with a decodable list
returns exactly the record-by-record projection of the list, in the
registry's order, with a nil error; in particular an empty list yields the
empty sequence and no error. -/
theorem GetAllServiceEndpoints_ordered (k : keeperClient) (b : Body)
    (m : MultiRegistrationsResponse)
    (hdec : decodeMultiRegistrationsResponse b = some m) :
    ((k.GetAllServiceEndpoints (.resp 200 (.content b))).result =
      (m.registrations.map endpointOfRegistration, none)) ∧
    ((k.GetAllServiceEndpoints (.resp 200 (.content b))).result.1.length =
      m.registrations.length) ∧
    (m.registrations = [] →
      (k.GetAllServiceEndpoints (.resp 200 (.content b))).result = ([], none)) := by
  cases b <;> simp [decodeMultiRegistrationsResponse] at hdec
  subst hdec
  refine ⟨rfl, by simp [keeperClient.GetAllServiceEndpoints,
    decodeMultiRegistrationsResponse], ?_⟩
  intro hempty
  simp [keeperClient.GetAllServiceEndpoints, decodeMultiRegistrationsResponse, hempty]

/-- Witness for C6: a two-record list maps to its two endpoints in order,
and the empty list gives the empty sequence with no error. -/
theorem GetAllServiceEndpoints_ordered_witness :
    ((sampleClient.GetAllServiceEndpoints (.resp 200 (.content (.multiBody
        { registrations := [sampleRegistration,
            { sampleRegistration with serviceId := "core-metadata" }] })))).result =
      ([endpointOfRegistration sampleRegistration,
        endpointOfRegistration { sampleRegistration with serviceId := "core-metadata" }],
       none)) ∧
    ((sampleClient.GetAllServiceEndpoints
        (.resp 200 (.content (.multiBody { registrations := [] })))).result =
      ([], none)) :=
  ⟨(GetAllServiceEndpoints_ordered sampleClient
      (.multiBody { registrations := [sampleRegistration,
        { sampleRegistration with serviceId := "core-metadata" }] })
      { registrations := [sampleRegistration,
        { sampleRegistration with serviceId := "core-metadata" }] } rfl).1,
   (GetAllServiceEndpoints_ordered sampleClient
      (.multiBody { registrations := [] }) { registrations := [] } rfl).2.2 rfl⟩

/-- A configuration whose service host is set while port, route and
interval are at their zero values. -/
def partialConfig : Config :=
  { registryUrl := "http://localhost:59890"
    serviceKey := "core-data"
    serviceHost := "edgex-core-data"
    servicePort := 0
    checkRoute := ""
    checkInterval := "" }

/-- Counterexample to C8: at `partialConfig` the full self-registration
data (host, port, route, interval) is NOT all present, yet the constructed
client does not leave those fields at their zero values — the host is
stored anyway, because the code gates the copy on the service host alone. -/
theorem NewKeeperClient_fullDataGate_counterexample :
    ¬((partialConfig.serviceHost ≠ "" ∧ partialConfig.servicePort ≠ 0 ∧
        partialConfig.checkRoute ≠ "" ∧ partialConfig.checkInterval ≠ "") ∨
      ((NewKeeperClient partialConfig).1.serviceHost = "" ∧
       (NewKeeperClient partialConfig).1.servicePort = 0 ∧
       (NewKeeperClient partialConfig).1.healthCheckRoute = "" ∧
       (NewKeeperClient partialConfig).1.healthCheckInterval = "")) := by
  decide

/-- C8 (amended): `NewKeeperClient` always returns a nil error, performs no
I/O (its type carries no request trace), stores the configuration, the
service key and the derived registry base URL, and copies host, port,
health-check route and interval from the configuration exactly when the
configuration's service host is non-empty, leaving them at their zero
values otherwise. -/
theorem NewKeeperClient_hostGate (cfg : Config) :
    ((NewKeeperClient cfg).2 = none) ∧
    ((NewKeeperClient cfg).1.config = cfg) ∧
    ((NewKeeperClient cfg).1.serviceKey = cfg.serviceKey) ∧
    ((NewKeeperClient cfg).1.keeperUrl = cfg.GetRegistryUrl) ∧
    (cfg.serviceHost ≠ "" →
      (NewKeeperClient cfg).1.serviceHost = cfg.serviceHost ∧
      (NewKeeperClient cfg).1.servicePort = cfg.servicePort ∧
      (NewKeeperClient cfg).1.healthCheckRoute = cfg.checkRoute ∧
      (NewKeeperClient cfg).1.healthCheckInterval = cfg.checkInterval) ∧
    (cfg.serviceHost = "" →
      (NewKeeperClient cfg).1.serviceHost = "" ∧
      (NewKeeperClient cfg).1.servicePort = 0 ∧
      (NewKeeperClient cfg).1.healthCheckRoute = "" ∧
      (NewKeeperClient cfg).1.healthCheckInterval = "") := by
  by_cases h : cfg.serviceHost = ""
  · refine ⟨?_, ?_, ?_, ?_, fun hc => absurd h hc, fun _ => ?_⟩ <;>
      simp [NewKeeperClient, h]
  · refine ⟨?_, ?_, ?_, ?_, fun _ => ?_, fun hc => absurd hc h⟩ <;>
      simp [NewKeeperClient, h]

/-- Witness for C8 (amended): at `sampleConfig` (host set) the fields are
copied, and at a host-less configuration they stay at zero values. -/
theorem NewKeeperClient_hostGate_witness :
    ((NewKeeperClient sampleConfig).1.serviceHost = sampleConfig.serviceHost ∧
     (NewKeeperClient sampleConfig).1.servicePort = sampleConfig.servicePort ∧
     (NewKeeperClient sampleConfig).1.healthCheckRoute = sampleConfig.checkRoute ∧
     (NewKeeperClient sampleConfig).1.healthCheckInterval = sampleConfig.checkInterval) ∧
    ((NewKeeperClient { sampleConfig with serviceHost := "" }).1.serviceHost = "" ∧
     (NewKeeperClient { sampleConfig with serviceHost := "" }).1.servicePort = 0 ∧
     (NewKeeperClient { sampleConfig with serviceHost := "" }).1.healthCheckRoute = "" ∧
     (NewKeeperClient { sampleConfig with serviceHost := "" }).1.healthCheckInterval = "") :=
  ⟨(NewKeeperClient_hostGate sampleConfig).2.2.2.2.1 (by decide),
   (NewKeeperClient_hostGate { sampleConfig with serviceHost := "" }).2.2.2.2.2 rfl⟩
